import Mathlib

/-!
Verification of the workspace-intelligence / relevance-scoring engine of the
Typescript-mcp repository.

The TypeScript source is shallowly embedded: strings become `List Char`,
JavaScript numbers become exact rationals (`ℚ`), fallible steps (a throwing
`RegExp` constructor) and the IEEE value `NaN` are made explicit in a sum
type `JSOutcome`.  JavaScript `Date.now()` is passed in as an explicit
`now` parameter.  All definitions are executable structural recursions so
that concrete inputs evaluate inside the kernel.
-/

/-- Strings are modelled as lists of characters. -/
abbrev Str : Type := List Char

/-- Coerce a Lean string literal into the model's string type. -/
def str (x : String) : Str := x.toList

/-- ASCII lower-casing, modelling JavaScript `toLowerCase` on the ASCII
texts handled by this engine. -/
def lowerStr (t : Str) : Str := t.map Char.toLower

/-- JavaScript whitespace test for the characters appearing here
(space, tab, newline, carriage return). -/
def isWs (c : Char) : Bool := c == ' ' || c == '\t' || c == '\n' || c == '\r'

/-- JavaScript regex `\w` / word character: `[A-Za-z0-9_]`. -/
def isWordChar (c : Char) : Bool := c.isAlpha || c.isDigit || c == '_'

/-- `listPrefixOf p l` holds when `p` is a prefix of `l`. -/
def listPrefixOf : Str → Str → Bool
  | [], _ => true
  | _ :: _, [] => false
  | a :: as, b :: bs => a == b && listPrefixOf as bs

/-- JavaScript `hay.includes(needle)`: substring containment. -/
def strIncludes (hay needle : Str) : Bool :=
  match hay with
  | [] => needle.isEmpty
  | _ :: t => listPrefixOf needle hay || strIncludes t needle

/-- Length of the maximal prefix of `l` whose characters satisfy `cls`. -/
def runLen (cls : Char → Bool) : Str → Nat
  | [] => 0
  | c :: t => if cls c then runLen cls t + 1 else 0

/-- Non-overlapping left-to-right occurrence counting, as performed by
`text.match(new RegExp(term, 'g'))` for a plain (metacharacter-free)
pattern.  `skip` characters are first passed over; after a match the scan
resumes past the matched characters. -/
def countOccAux (needle : Str) : Nat → Str → Nat
  | _, [] => 0
  | sk + 1, _ :: t => countOccAux needle sk t
  | 0, c :: t =>
      if listPrefixOf needle (c :: t) then 1 + countOccAux needle (needle.length - 1) t
      else countOccAux needle 0 t

/-- Occurrence count of `needle` in `hay` for a JavaScript global regex
match with a plain pattern.  A JavaScript empty pattern matches at every
position, giving `length + 1` matches. -/
def countOcc (hay needle : Str) : Nat :=
  if needle.isEmpty then hay.length + 1 else countOccAux needle 0 hay

/-- Split a string on runs of whitespace, dropping empty fragments.
JavaScript `split(/\s+/)` can additionally yield one empty leading
fragment; every caller in the source immediately filters fragments by a
minimum length, so the two are interchangeable there. -/
def splitWs : Str → List Str
  | [] => []
  | c :: t =>
      if isWs c then splitWs t
      else
        match splitWs t with
        | [] => [[c]]
        | w :: ws =>
            match t with
            | [] => [[c]]
            | d :: _ => if isWs d then [c] :: w :: ws else (c :: w) :: ws

/-- Split a string at every occurrence of the single character `sep`,
as JavaScript `text.split(sep)` (adjacent separators yield empty parts). -/
def splitChar (sep : Char) : Str → List Str
  | [] => [[]]
  | c :: t =>
      let rest := splitChar sep t
      if c == sep then [] :: rest
      else
        match rest with
        | [] => [[c]]
        | w :: ws => (c :: w) :: ws

/-- Remove whitespace from both ends, as JavaScript `trim()`. -/
def trimWs (t : Str) : Str :=
  ((t.dropWhile isWs).reverse.dropWhile isWs).reverse

/-- Stable insertion of `x` into a list sorted descending by `key`:
`x` is placed before the first element whose key is `≤ key x`. -/
def insertDescBy (key : α → ℤ) (x : α) : List α → List α
  | [] => [x]
  | y :: ys => if key y ≤ key x then x :: y :: ys else y :: insertDescBy key x ys

/-- Stable sort, descending by `key`; behaviourally equal to JavaScript's
(ES2019-stable) `sort((a, b) => key b - key a)`. -/
def sortDescBy (key : α → ℤ) : List α → List α
  | [] => []
  | x :: xs => insertDescBy key x (sortDescBy key xs)

/-- First occurrences of each element, in order (the key order of a
JavaScript `Map` built by repeated insertion). -/
def dedupFirst : List Str → List Str
  | [] => []
  | w :: ws => w :: (dedupFirst ws).filter (fun v => !(v == w))

/-- Word-frequency table in `Map` insertion order: each distinct word of
`ws` paired with its number of occurrences. -/
def wordCounts (ws : List Str) : List (Str × Nat) :=
  (dedupFirst ws).map (fun w => (w, ws.count w))

-- ===== part_002 (content search tools): relevance scoring =====

/-- Search types of the content-search tools. -/
inductive SearchType where
  | content | keywords | technical | problem | solution | all
deriving DecidableEq

/-- `TECH_KEYWORDS` from the search tools. -/
def TECH_KEYWORDS : List Str :=
  [str "react", str "vue", str "angular", str "typescript", str "javascript",
   str "python", str "java", str "node.js", str "express", str "django",
   str "flask", str "spring", str "mongodb", str "postgresql", str "mysql",
   str "docker", str "kubernetes", str "aws", str "azure", str "git",
   str "github", str "api", str "database", str "frontend", str "backend",
   str "fullstack", str "mobile", str "web", str "app", str "development",
   str "devops", str "ci/cd"]

/-- `PROBLEM_KEYWORDS` from the search tools. -/
def PROBLEM_KEYWORDS : List Str :=
  [str "error", str "bug", str "issue", str "problem", str "fix", str "debug",
   str "troubleshoot", str "broken", str "not working", str "failed",
   str "crash", str "exception", str "help", str "stuck", str "resolve"]

/-- `SOLUTION_KEYWORDS` from the search tools. -/
def SOLUTION_KEYWORDS : List Str :=
  [str "fix", str "solve", str "solution", str "resolved", str "worked",
   str "success", str "implement", str "approach", str "method", str "way to",
   str "how to", str "tutorial", str "guide", str "steps"]

/-- `containsTechnicalTerms`. -/
def containsTechnicalTerms (text : Str) : Bool :=
  TECH_KEYWORDS.any (fun k => strIncludes text k)

/-- `containsProblemKeywords`. -/
def containsProblemKeywords (text : Str) : Bool :=
  PROBLEM_KEYWORDS.any (fun k => strIncludes text k)

/-- `containsSolutionKeywords`. -/
def containsSolutionKeywords (text : Str) : Bool :=
  SOLUTION_KEYWORDS.any (fun k => strIncludes text k)

/-- Quantifier characters of JavaScript regexes. -/
def isQuant (c : Char) : Bool := c == '*' || c == '+' || c == '?'

/-- States of the small compile-check automaton for `new RegExp(term)`:
what the previous character was. -/
inductive RState where
  | start      -- nothing yet (no atom to quantify)
  | afterAtom  -- a literal atom
  | afterQuant -- a quantifier (only a lazy `?` may follow)
  | afterLazy  -- a lazy marker (no further quantifier may follow)

/-- Compile-failure check for `new RegExp(term, 'g')`, modelled on the
fragment of patterns made of word characters, `-`, and the quantifiers
`* + ?` (which covers every query term used in the claims): construction
fails exactly when a quantifier has nothing to repeat, i.e. appears first,
or follows a quantifier other than as a single lazy `?`.  For example
`c++` fails ("nothing to repeat") while `abc` or `c+` compile. -/
def regexBadFrom : RState → Str → Bool
  | _, [] => false
  | RState.start, c :: t =>
      if isQuant c then true else regexBadFrom RState.afterAtom t
  | RState.afterAtom, c :: t =>
      if isQuant c then regexBadFrom RState.afterQuant t
      else regexBadFrom RState.afterAtom t
  | RState.afterQuant, c :: t =>
      if c == '?' then regexBadFrom RState.afterLazy t
      else if isQuant c then true
      else regexBadFrom RState.afterAtom t
  | RState.afterLazy, c :: t =>
      if isQuant c then true else regexBadFrom RState.afterAtom t

/-- Whether `new RegExp(term, 'g')` throws a `SyntaxError` (see
`regexBadFrom`). -/
def regexThrows (term : Str) : Bool := regexBadFrom RState.start term

/-- A term consisting only of word characters or `-`: such a term compiles
as a regex and matches itself literally.  Every term the spec's scenarios
feed to the scorer — lower-case alphanumeric search tokens — is plain. -/
def plainTerm (term : Str) : Bool :=
  term.all (fun c => isWordChar c || c == '-')

/-- Outcome of a JavaScript numeric computation: a thrown exception, the
value `NaN`, or an ordinary (here: exact rational) number. -/
inductive JSOutcome where
  | thrown
  | nan
  | num (q : ℚ)
deriving DecidableEq

/-- The term loop of `calculateRelevanceScore`: for each query term
contained in the text, count it (`matchCount++`) and add
`frequency * 0.1` to the running score; building the frequency regex for
a term that is not a valid regex throws (`none`). -/
def relevanceLoop (text : Str) : ℚ → Nat → List Str → Option (ℚ × Nat)
  | score, mc, [] => some (score, mc)
  | score, mc, t :: ts =>
      if strIncludes text t then
        if regexThrows t then none
        else relevanceLoop text (score + (countOcc text t : ℚ) * (1/10)) (mc + 1) ts
      else relevanceLoop text score mc ts

/-- `calculateRelevanceScore(text, queryTerms, searchType)` from the search
tools.  With an empty term list JavaScript computes
`matchCount / queryTerms.length = 0/0 = NaN`, which propagates through the
remaining arithmetic and `Math.min`, so the function returns `NaN`. -/
def calculateRelevanceScore (text : Str) (queryTerms : List Str)
    (searchType : SearchType) : JSOutcome :=
  match relevanceLoop text 0 0 queryTerms with
  | none => JSOutcome.thrown
  | some (score, mc) =>
      if queryTerms.length = 0 then JSOutcome.nan
      else
        let score := score + ((mc : ℚ) / (queryTerms.length : ℚ)) * (1/2)
        let score :=
          match searchType with
          | SearchType.technical =>
              if containsTechnicalTerms text then score * (3/2) else score
          | SearchType.problem =>
              if containsProblemKeywords text then score * (3/2) else score
          | SearchType.solution =>
              if containsSolutionKeywords text then score * (3/2) else score
          | _ => score
        JSOutcome.num (min score 1)

/-- Query tokenisation of `searchWorkspaceConversations`:
`query.toLowerCase().split(/\s+/).filter(term => term.length > 2)`. -/
def tokenizeQuery (query : Str) : List Str :=
  (splitWs (lowerStr query)).filter (fun t => t.length > 2)

-- ===== Derived quantities of the relevance scorer (used to state C2) =====

/-- Sum of the occurrence counts of the query terms contained in the text
(the quantity the loop accumulates, scaled by `0.1`); a term not present
contributes nothing. -/
def matchedFreqSum (text : Str) (ts : List Str) : Nat :=
  (ts.map (fun t => if strIncludes text t then countOcc text t else 0)).sum

/-- Number of query terms contained in the text (`matchCount`). -/
def matchedCount (text : Str) (ts : List Str) : Nat :=
  ts.countP (fun t => strIncludes text t)

/-- The search-type multiplier as a factor: `3/2` when the hint matches
the corresponding keyword class found in the document, else `1`. -/
def typeBoost (text : Str) (st : SearchType) : ℚ :=
  match st with
  | SearchType.technical => if containsTechnicalTerms text then 3/2 else 1
  | SearchType.problem => if containsProblemKeywords text then 3/2 else 1
  | SearchType.solution => if containsSolutionKeywords text then 3/2 else 1
  | _ => 1

/-- The relevance formula exactly as the specification words it: the sum
over query terms present in the text of `frequency * 0.1`, plus
`matchedTermCount / totalQueryTerms * 0.5`, multiplied by `1.5` on a
matching search-type hint, clamped to `[0, 1]`. -/
def specRelevanceScore (text : Str) (ts : List Str) (st : SearchType) : ℚ :=
  max 0 (min 1
    (((matchedFreqSum text ts : ℚ) * (1/10)
      + ((matchedCount text ts : ℚ) / (ts.length : ℚ)) * (1/2))
     * typeBoost text st))

-- ===== session-tools.ts: topic extraction and session similarity =====

/-- The `commonWords` stop set of `extractTopics`. -/
def COMMON_WORDS : List Str :=
  [str "the", str "a", str "an", str "and", str "or", str "but", str "in",
   str "on", str "at", str "to", str "for", str "of", str "with", str "by",
   str "is", str "are", str "was", str "were", str "be", str "been",
   str "have", str "has", str "had", str "do", str "does", str "did",
   str "will", str "would", str "could", str "should", str "can", str "may",
   str "might", str "this", str "that", str "these", str "those", str "i",
   str "you", str "he", str "she", str "it", str "we", str "they", str "me",
   str "him", str "her", str "us", str "them"]

/-- Replace every character that is neither a word character nor
whitespace by a space (`replace(/[^\w\s]/g, ' ')`). -/
def punctToSpace (t : Str) : Str :=
  t.map (fun c => if isWordChar c || isWs c then c else ' ')

/-- `extractTopics` from the session tools: lower-case, strip punctuation,
tokenize, keep words longer than 3 that are not stop words, rank by
frequency (stable on ties, i.e. first-occurrence order) and keep the top
10. -/
def extractTopics (text : Str) : List Str :=
  if text.isEmpty then []
  else
    let words := (splitWs (punctToSpace (lowerStr text))).filter
      (fun w => w.length > 3 && !(COMMON_WORDS.contains w))
    ((sortDescBy (fun e => (e.2 : ℤ)) (wordCounts words)).take 10).map Prod.fst

/-- The similarity computation of `findRelatedSessionsImpl`: search topics
are extracted from the search text, session topics from the session's
aggregated (lower-cased) conversation text; a search topic counts as
common when it is a session topic or occurs verbatim in the session text;
the score divides by `max(searchKeywords.length, 1)`. -/
def scoreSimilarity (searchText sessionText : Str) : ℚ :=
  let searchKeywords := extractTopics (lowerStr searchText)
  let sessionLower := lowerStr sessionText
  let sessionKeywords := extractTopics sessionLower
  let common := searchKeywords.filter
    (fun k => sessionKeywords.contains k || strIncludes sessionLower k)
  (common.length : ℚ) / (max searchKeywords.length 1 : ℚ)

-- ===== A small matcher for the capture regexes of analysis.ts =====

/-- One item of a (capture-free) regex prefix, covering exactly the
constructs used by `analysis.ts`: an alternation of literal strings, a
greedy or lazy repetition of a single-character class, and the optional
group shape `(?:word\s+)?`. -/
inductive RItem where
  | lit (alts : List Str)
  | rep (cls : Char → Bool) (lo : Nat) (hi : Option Nat) (greedy : Bool)
  | optLitWs (alts : List Str)

/-- A repetition of a single-character class with finite bounds, used for
capture groups such as `[a-zA-Z][a-zA-Z0-9\s]{3,25}` and `[^.!?]{10,50}`. -/
structure CRep where
  cls : Char → Bool
  lo : Nat
  hi : Nat

/-- A capture pattern of `analysis.ts`: a prefix followed by a final
capture group (in every pattern of the source the capture group is the
last element). -/
structure GPattern where
  pre : List RItem
  cap : List CRep

/-- Repetition counts to try, in backtracking order: greedy tries
`hi, hi-1, …, lo`, lazy tries `lo, lo+1, …, hi`. -/
def repCandidates (lo hi : Nat) (greedy : Bool) : List Nat :=
  if greedy then (List.range (hi + 1 - lo)).map (fun i => hi - i)
  else (List.range (hi + 1 - lo)).map (fun i => lo + i)

/-- First alternative (in alternation order) under which the continuation
succeeds — i.e. regex alternation with backtracking. -/
def tryAlts (alts : List Str) (text : Str) (k : Str → Option α) : Option α :=
  match alts with
  | [] => none
  | a :: rest =>
      (if listPrefixOf a text then k (text.drop a.length) else none)
        <|> tryAlts rest text k

/-- First candidate from a list for which `f` succeeds (backtracking). -/
def firstSome (xs : List γ) (f : γ → Option α) : Option α :=
  match xs with
  | [] => none
  | x :: rest => f x <|> firstSome rest f

/-- Backtracking matcher for a prefix item sequence; `k` receives the
remaining text. -/
def mseq : List RItem → Str → (Str → Option α) → Option α
  | [], text, k => k text
  | RItem.lit alts :: rest, text, k =>
      tryAlts alts text (fun t2 => mseq rest t2 k)
  | RItem.rep cls lo hi greedy :: rest, text, k =>
      let run := runLen cls text
      let hi2 := min run (hi.getD run)
      firstSome (repCandidates lo hi2 greedy) (fun j => mseq rest (text.drop j) k)
  | RItem.optLitWs alts :: rest, text, k =>
      (tryAlts alts text (fun t2 =>
        let run := runLen isWs t2
        firstSome (repCandidates 1 run true) (fun j => mseq rest (t2.drop j) k)))
        <|> mseq rest text k

/-- Backtracking matcher for the capture reps; `k` receives the number of
characters consumed. -/
def matchCap : List CRep → Str → (Nat → Option α) → Option α
  | [], _, k => k 0
  | r :: rest, text, k =>
      let run := runLen r.cls text
      let hi2 := min run r.hi
      firstSome (repCandidates r.lo hi2 true) (fun j =>
        matchCap rest (text.drop j) (fun m => k (j + m)))

/-- Try a full pattern match at the start of `text`, returning the capture
string and the total match length. -/
def tryMatchAt (p : GPattern) (text : Str) : Option (Str × Nat) :=
  mseq p.pre text (fun t2 =>
    matchCap p.cap t2 (fun m =>
      some (t2.take m, (text.length - t2.length) + m)))

/-- `matchAll` scan: leftmost matches, each scan resuming after the
previous match (all source patterns match at least one character). -/
def scanAllAux (p : GPattern) : Nat → Str → List Str
  | _, [] => []
  | sk + 1, _ :: t => scanAllAux p sk t
  | 0, c :: t =>
      match tryMatchAt p (c :: t) with
      | some (cap, len) => cap :: scanAllAux p (len - 1) t
      | none => scanAllAux p 0 t

/-- All capture strings of `[...text.matchAll(pattern)]`. -/
def scanAll (p : GPattern) (text : Str) : List Str := scanAllAux p 0 text

/-- Character class `[^.!?]`. -/
def notTermCls (c : Char) : Bool := !(c == '.' || c == '!' || c == '?')

/-- Character class `[a-zA-Z]` (the `i` flag and the lower-cased input
make the case split irrelevant). -/
def alphaCls (c : Char) : Bool := c.isAlpha

/-- Character class `[a-zA-Z0-9\s]`. -/
def alnumWsCls (c : Char) : Bool := c.isAlpha || c.isDigit || isWs c

/-- JavaScript `.` without the `s` flag: anything but a line terminator. -/
def anyNoNl (c : Char) : Bool :=
  !(c == '\n' || c == '\r' || c == Char.ofNat 0x2028 || c == Char.ofNat 0x2029)

-- ===== analysis.ts: word-boundary matching and pattern tables =====

/-- Start-of-match and end-of-match `\b` test for the compiled table
patterns `\b<escaped literal>\b` of `analysis.ts`: the pattern must occur
literally, with a word/non-word transition at each end (string ends count
as non-word). `prevW` tells whether the character before the current
position is a word character. -/
def matchesWB (pat : Str) (prevW : Bool) (rest : Str) : Bool :=
  listPrefixOf pat rest &&
  (match pat.head? with
   | some c => prevW != isWordChar c
   | none => false) &&
  ((match pat.getLast? with
    | some c => isWordChar c
    | none => false) !=
   (match (rest.drop pat.length).head? with
    | some c => isWordChar c
    | none => false))

/-- Non-overlapping scan counting the global matches of
`\b<literal>\b`; `prevW` and the skip counter carry the scan state. -/
def countWBAux (pat : Str) : Bool → Nat → Str → Nat
  | _, _, [] => 0
  | _, sk + 1, c :: t => countWBAux pat (isWordChar c) sk t
  | prevW, 0, c :: t =>
      if matchesWB pat prevW (c :: t) then
        1 + countWBAux pat (isWordChar c) (pat.length - 1) t
      else countWBAux pat (isWordChar c) 0 t

/-- Number of matches of `new RegExp('\\b' + escape(pat) + '\\b', 'gi')`
in `text`; the `i` flag together with the lower-cased input is modelled by
lower-casing the pattern at each use site. -/
def countWB (text pat : Str) : Nat := countWBAux pat false 0 text

/-- `TECHNOLOGY_PATTERNS` from `analysis.ts`. -/
def TECHNOLOGY_PATTERNS : List (Str × List Str) :=
  [(str "React", [str "react", str "jsx", str "tsx", str "component", str "usestate", str "useeffect", str "props", str "react-dom", str "create-react-app"]),
   (str "Vue", [str "vue", str "vuejs", str "vue.js", str "nuxt", str "composition api", str "reactive", str "ref("]),
   (str "Angular", [str "angular", str "ng-", str "typescript", str "@angular", str "@component", str "@injectable"]),
   (str "Svelte", [str "svelte", str "sveltekit", str ".svelte"]),
   (str "Node.js", [str "nodejs", str "node.js", str "npm", str "package.json", str "express", str "node_modules", str "require(", str "module.exports"]),
   (str "Express", [str "express", str "app.listen", str "middleware", str "app.get", str "app.post", str "router"]),
   (str "Django", [str "django", str "python", str "models.py", str "views.py", str "urls.py", str "settings.py", str "manage.py"]),
   (str "Flask", [str "flask", str "python", str "app.route", str "@app.route", str "render_template"]),
   (str "FastAPI", [str "fastapi", str "python", str "pydantic", str "@app.get", str "@app.post", str "uvicorn"]),
   (str "Spring", [str "spring", str "java", str "@controller", str "@service", str "@repository", str "@autowired"]),
   (str "Next.js", [str "nextjs", str "next.js", str "next/image", str "next/router", str "getServerSideProps", str "getStaticProps"]),
   (str "TypeScript", [str "typescript", str ".ts", str ".tsx", str "interface", str "type", str "enum", str "namespace", str "tsc"]),
   (str "JavaScript", [str "javascript", str ".js", str ".mjs", str "function", str "const", str "let", str "var", str "arrow function"]),
   (str "Python", [str "python", str ".py", str "def ", str "import ", str "pip", str "requirements.txt", str "venv", str "__init__.py"]),
   (str "Java", [str "java", str ".java", str "class ", str "public static", str "maven", str "gradle", str "springframework"]),
   (str "C#", [str "csharp", str "c#", str ".cs", str "using System", str "namespace", str ".net", str "visual studio"]),
   (str "Go", [str "golang", str "go", str ".go", str "func main", str "package main", str "go mod"]),
   (str "Rust", [str "rust", str ".rs", str "cargo", str "fn main", str "cargo.toml", str "struct", str "impl"]),
   (str "PHP", [str "php", str ".php", str "<?php", str "composer", str "laravel", str "symfony"]),
   (str "MongoDB", [str "mongodb", str "mongo", str "mongoose", str "collection", str "aggregation", str "bson"]),
   (str "PostgreSQL", [str "postgresql", str "postgres", str "psql", str "pg_", str "pgadmin"]),
   (str "MySQL", [str "mysql", str "mariadb", str "mysqldump", str "phpmyadmin"]),
   (str "SQLite", [str "sqlite", str "sqlite3", str ".db", str ".sqlite", str "sqlite_"]),
   (str "Redis", [str "redis", str "cache", str "redis-cli", str "redisinsight"]),
   (str "Docker", [str "docker", str "dockerfile", str "container", str "docker-compose", str "image", str "containerization"]),
   (str "Kubernetes", [str "kubernetes", str "k8s", str "kubectl", str "pod", str "deployment", str "service", str "namespace"]),
   (str "AWS", [str "aws", str "amazon", str "ec2", str "s3", str "lambda", str "cloudformation", str "iam", str "vpc"]),
   (str "Azure", [str "azure", str "microsoft", str "az cli", str "resource group", str "app service"]),
   (str "Git", [str "git", str "github", str "gitlab", str "commit", str "push", str "pull", str "merge", str "branch", str "repository"]),
   (str "Jest", [str "jest", str "test", str "expect", str "describe", str "it(", str "beforeEach"]),
   (str "Cypress", [str "cypress", str "e2e", str "cy.", str "integration test"]),
   (str "Pytest", [str "pytest", str "test_", str "assert", str "fixture", str "conftest.py"]),
   (str "React Native", [str "react native", str "react-native", str "expo", str "metro", str "react-native-cli"]),
   (str "Flutter", [str "flutter", str "dart", str "widget", str "pubspec.yaml", str "flutter doctor"]),
   (str "Swift", [str "swift", str "ios", str "xcode", str "cocoapods", str "swift package"]),
   (str "Kotlin", [str "kotlin", str "android", str "gradle", str "android studio"]),
   (str "TensorFlow", [str "tensorflow", str "tf.", str "keras", str "tensor", str "neural network"]),
   (str "PyTorch", [str "pytorch", str "torch", str "neural", str "tensor", str "autograd"]),
   (str "OpenAI", [str "openai", str "gpt", str "chatgpt", str "ai", str "llm", str "language model"]),
   (str "LangChain", [str "langchain", str "llm", str "chain", str "agent", str "retrieval"]),
   (str "MCP", [str "mcp", str "model context protocol", str "mcp server", str "cursor", str "typescript-mcp"]),
   (str "Cursor", [str "cursor", str "cursor ai", str "composer", str "workspace", str "ai assistant"])]

/-- `PROJECT_TYPE_PATTERNS` from `analysis.ts`. -/
def PROJECT_TYPE_PATTERNS : List (Str × List Str) :=
  [(str "Web Application", [str "web app", str "website", str "frontend", str "backend", str "full stack", str "api", str "server", str "client"]),
   (str "Mobile App", [str "mobile", str "ios", str "android", str "react native", str "flutter", str "app store", str "mobile development"]),
   (str "DevOps/Tooling", [str "devops", str "deployment", str "ci/cd", str "docker", str "kubernetes", str "automation", str "script", str "infrastructure"]),
   (str "Data Analysis", [str "data", str "analysis", str "visualization", str "pandas", str "numpy", str "jupyter", str "dataset", str "analytics"]),
   (str "Machine Learning", [str "ml", str "ai", str "model", str "training", str "neural", str "tensorflow", str "pytorch", str "deep learning"]),
   (str "Game Development", [str "game", str "unity", str "unreal", str "godot", str "pygame", str "gaming"]),
   (str "Desktop Application", [str "desktop", str "electron", str "tkinter", str "qt", str "gui", str "desktop app"]),
   (str "Library/Package", [str "library", str "package", str "npm", str "pip", str "gem", str "framework", str "sdk", str "component library"]),
   (str "Learning/Tutorial", [str "learn", str "tutorial", str "course", str "practice", str "exercise", str "study", str "example"]),
   (str "Bug Fix/Debugging", [str "bug", str "fix", str "debug", str "error", str "issue", str "problem", str "troubleshoot"]),
   (str "MCP Development", [str "mcp", str "model context protocol", str "mcp server", str "cursor integration", str "tool development"]),
   (str "API Development", [str "api", str "rest", str "graphql", str "endpoint", str "microservice", str "web service"])]

/-- `STATUS_PATTERNS` from `analysis.ts`. -/
def STATUS_PATTERNS : List (Str × List Str) :=
  [(str "Setup", [str "setup", str "install", str "initialize", str "create project", str "getting started", str "first time", str "configuration", str "environment"]),
   (str "Active", [str "implement", str "add feature", str "working on", str "build", str "develop", str "creating", str "coding", str "writing"]),
   (str "Problem Solving", [str "error", str "bug", str "fix", str "debug", str "issue", str "problem", str "stuck", str "help", str "troubleshoot", str "not working"]),
   (str "Documentation", [str "document", str "readme", str "comment", str "explain", str "write docs", str "documentation", str "guide"]),
   (str "Complete", [str "done", str "finished", str "complete", str "deploy", str "release", str "final", str "production", str "live"]),
   (str "Abandoned", [str "abandon", str "stop", str "cancel", str "give up", str "not working", str "switching to"])]

/-- Weighted score of one category row: each pattern contributes
`occurrences * (listLength - index)`. -/
def patScore (text : Str) (patterns : List Str) : Nat :=
  (patterns.enum.map
    (fun ip => countWB text (lowerStr ip.2) * (patterns.length - ip.1))).sum

/-- Score every row of a category table and keep the rows with a positive
score, in table (i.e. `Map` insertion) order. -/
def scoreTable (text : Str) (table : List (Str × List Str)) : List (Str × Nat) :=
  (table.map (fun e => (e.1, patScore text e.2))).filter (fun e => e.2 > 0)

/-- `detectTechnologies`: positive-scoring technologies, stably sorted by
descending score, top 5. -/
def detectTechnologies (text : Str) : List Str :=
  ((sortDescBy (fun e => (e.2 : ℤ)) (scoreTable text TECHNOLOGY_PATTERNS)).take 5).map
    Prod.fst

/-- `determineProjectType`: highest-scoring project type, `Unknown` when
no row scores. -/
def determineProjectType (text : Str) : Str :=
  match sortDescBy (fun e => (e.2 : ℤ)) (scoreTable text PROJECT_TYPE_PATTERNS) with
  | [] => str "Unknown"
  | e :: _ => e.1

/-- Unweighted score of a status row: `score += matches.length` for every
pattern. -/
def statusScore (text : Str) (patterns : List Str) : Nat :=
  (patterns.map (fun p => countWB text (lowerStr p))).sum

/-- The last `n` elements of a list (JavaScript `slice(-n)`). -/
def lastN (n : Nat) (l : List α) : List α := l.drop (l.length - n)

-- ===== analysis.ts: data shapes =====

/-- A raw prompt record (all fields optional in the source). -/
structure RawPrompt where
  unixMs : Option ℤ
  generationUUID : Option Str
  textDescription : Option Str
  text : Option Str
deriving DecidableEq

/-- A raw generation record. -/
structure RawGeneration where
  unixMs : Option ℤ
  generationUUID : Option Str
  type : Option Str
  textDescription : Option Str
deriving DecidableEq

/-- `ConversationData`. -/
structure ConversationData where
  prompts : List RawPrompt
  generations : List RawGeneration
deriving DecidableEq

/-- `ComposerSession`. -/
structure ComposerSession where
  composerId : Str
  name : Str
  createdAt : ℤ
  lastUpdatedAt : ℤ
  unifiedMode : Str
  forceMode : Str
deriving DecidableEq

/-- A normalized prompt (`{ text, timestamp, uuid }`). -/
structure NormEntry where
  text : Str
  timestamp : ℤ
  uuid : Str
deriving DecidableEq

/-- A normalized generation (`{ text, timestamp, type, uuid }`). -/
structure NormGen where
  text : Str
  timestamp : ℤ
  type : Str
  uuid : Str
deriving DecidableEq

/-- The normalized conversation passed between the analysis helpers. -/
structure NormConv where
  prompts : List NormEntry
  generations : List NormGen
deriving DecidableEq

/-- JavaScript `a || b` for an optional string: `b` when absent or empty
(the empty string is falsy). -/
def strOrElse (v : Option Str) (d : Str) : Str :=
  match v with
  | some s2 => if s2.isEmpty then d else s2
  | none => d

/-- JavaScript `a || b` for an optional number: `b` when absent or `0`
(zero is falsy). -/
def intOrElse (v : Option ℤ) (d : ℤ) : ℤ :=
  match v with
  | some x => if x = 0 then d else x
  | none => d

/-- Prompt normalization (`textDescription || text || ''`,
`unixMs || Date.now()`, `generationUUID || ''`). -/
def normalizePrompt (now : ℤ) (p : RawPrompt) : NormEntry :=
  { text := strOrElse p.textDescription (strOrElse p.text []),
    timestamp := intOrElse p.unixMs now,
    uuid := strOrElse p.generationUUID [] }

/-- Generation normalization (`textDescription || ''`,
`unixMs || Date.now()`, `type || 'unknown'`, `generationUUID || ''`). -/
def normalizeGeneration (now : ℤ) (g : RawGeneration) : NormGen :=
  { text := strOrElse g.textDescription [],
    timestamp := intOrElse g.unixMs now,
    type := strOrElse g.type (str "unknown"),
    uuid := strOrElse g.generationUUID [] }

/-- `detectProjectStatus`: scores the join of the last 5 prompt texts and
the last 5 generation texts against `STATUS_PATTERNS` and returns the
top-scoring status, defaulting to `Active`. -/
def detectProjectStatus (conv : NormConv) : Str :=
  let recentTexts := lowerStr (List.intercalate [' ']
    ((lastN 5 conv.prompts).map NormEntry.text
      ++ (lastN 5 conv.generations).map NormGen.text))
  match sortDescBy (fun e => (e.2 : ℤ))
      ((STATUS_PATTERNS.map (fun e => (e.1, statusScore recentTexts e.2))).filter
        (fun e => e.2 > 0)) with
  | [] => str "Active"
  | e :: _ => e.1

-- ===== analysis.ts: topic/goal/problem extraction and labels =====

/-- The stop-word regex of `extractKeyTopics`. -/
def KEYTOPIC_STOPWORDS : List Str :=
  [str "this", str "that", str "they", str "have", str "been", str "will",
   str "would", str "could", str "should", str "when", str "where",
   str "what", str "how", str "with", str "from", str "your", str "mine",
   str "our"]

/-- `capitalizeWords` helper: first character upper-cased, the rest
lower-cased; the empty word stays empty. -/
def capitalizeWord (w : Str) : Str :=
  match w with
  | [] => []
  | c :: rest => c.toUpper :: rest.map Char.toLower

/-- `capitalizeWords`: split on single spaces, capitalize each word,
re-join. -/
def capitalizeWords (t : Str) : Str :=
  List.intercalate [' '] ((splitChar ' ' t).map capitalizeWord)

/-- `extractKeyTopics`: tokenize the lower-cased, punctuation-stripped
text, keep words longer than 3 that are not stop words, keep words
occurring at least twice, rank by frequency (stable), top 8, title-case. -/
def extractKeyTopics (text : Str) : List Str :=
  let words := (splitWs (punctToSpace (lowerStr text))).filter
    (fun w => w.length > 3 && !(KEYTOPIC_STOPWORDS.contains w))
  (((sortDescBy (fun e => (e.2 : ℤ))
      ((wordCounts words).filter (fun e => e.2 ≥ 2))).take 8).map
    Prod.fst).map capitalizeWords

/-- `/(?:fixed|solved|resolved|debugged)\s+([^.!?]{10,50})/gi`.
The source's second problem pattern has no capture group, so its matches
are skipped by the `if (match[1])` guard and it never contributes. -/
def problemPattern : GPattern :=
  { pre := [RItem.lit [str "fixed", str "solved", str "resolved", str "debugged"],
            RItem.rep isWs 1 none true],
    cap := [⟨notTermCls, 10, 50⟩] }

/-- `extractProblemsSolved`. -/
def extractProblemsSolved (text : Str) : List Str :=
  ((scanAll problemPattern text).map (fun m => capitalizeWords (trimWs m))).take 3

/-- `/(?:want to|need to|trying to|goal is to|planning to)\s+([^.!?]{10,50})/gi`. -/
def goalPattern1 : GPattern :=
  { pre := [RItem.lit [str "want to", str "need to", str "trying to",
                       str "goal is to", str "planning to"],
            RItem.rep isWs 1 none true],
    cap := [⟨notTermCls, 10, 50⟩] }

/-- `/(?:implement|add|create|build)\s+([^.!?]{10,50})/gi`. -/
def goalPattern2 : GPattern :=
  { pre := [RItem.lit [str "implement", str "add", str "create", str "build"],
            RItem.rep isWs 1 none true],
    cap := [⟨notTermCls, 10, 50⟩] }

/-- `extractCurrentGoals`. -/
def extractCurrentGoals (text : Str) : List Str :=
  (((scanAll goalPattern1 text ++ scanAll goalPattern2 text)).map
    (fun m => capitalizeWords (trimWs m))).take 3

/-- The anchored leading-trigger alternation of `extractProjectName`'s
first `replace`, in alternation order. -/
def LEADING_TRIGGERS : List Str :=
  [str "how to", str "can you", str "help me", str "i want to",
   str "please", str "let\x27s", str "let me", str "create", str "build",
   str "develop", str "make", str "working on", str "building",
   str "understanding", str "review", str "fix", str "debug"]

/-- Remove one leading trigger, as `replace(/^( … )/gi, '')` (with `^` and
no `m` flag the global regex can only fire at position 0; alternation
picks the first listed alternative that matches there). -/
def stripLeadingTrigger (text : Str) : Str :=
  match LEADING_TRIGGERS.find? (fun a => listPrefixOf a text) with
  | some a => text.drop a.length
  | none => text

/-- The word alternation of `extractProjectName`'s second `replace`. -/
def FILLER_WORDS : List Str :=
  [str "app", str "application", str "project", str "website", str "tool",
   str "service", str "system", str "code", str "file", str "script",
   str "program", str "software"]

/-- Delete every word-boundary occurrence of one of `alts`
(`replace(/\b( … )\b/gi, '')`): matches are located on the original
string and removed; a shorter alternative inside a longer word fails its
trailing `\b` and backtracks to the longer one, so `find?` in alternation
order is exact. -/
def removeWBWordsAux (alts : List Str) : Bool → Nat → Str → Str
  | _, _, [] => []
  | _, del + 1, c :: t => removeWBWordsAux alts (isWordChar c) del t
  | prevW, 0, c :: t =>
      match alts.find? (fun a => matchesWB a prevW (c :: t)) with
      | some a => removeWBWordsAux alts (isWordChar c) (a.length - 1) t
      | none => c :: removeWBWordsAux alts (isWordChar c) 0 t

/-- Global word-boundary deletion over a whole string. -/
def removeWBWords (alts : List Str) (text : Str) : Str :=
  removeWBWordsAux alts false 0 text

/-- `replace(/[^\w\s-]/g, '')`: keep word characters, whitespace and
hyphens. -/
def keepWordWsHyphen (t : Str) : Str :=
  t.filter (fun c => isWordChar c || isWs c || c == '-')

/-- `isGenericText`: the lower-cased text contains a generic term and has
fewer than 4 space-separated words. -/
def GENERIC_TERMS : List Str :=
  [str "development", str "project", str "application", str "system",
   str "tool", str "service", str "website", str "app", str "code",
   str "program", str "software", str "script", str "file", str "this",
   str "that", str "something", str "anything", str "everything",
   str "nothing", str "issue", str "problem", str "error", str "bug",
   str "help", str "question"]

/-- `isGenericText`. -/
def isGenericText (text : Str) : Bool :=
  (GENERIC_TERMS.any (fun term => strIncludes (lowerStr text) term)) &&
  (splitChar ' ' text).length < 4

/-- `extractProjectName`.  The input is lower-cased up front, modelling
the `i` flags of both replaces; this is observationally equal because
every later test is case-independent and the only escaping output path
runs through `capitalizeWords`, which normalizes case anyway. -/
def extractProjectName (text : Str) : Option Str :=
  if text.length < 3 then none
  else
    let cleaned := trimWs (keepWordWsHyphen
      (removeWBWords FILLER_WORDS (stripLeadingTrigger (lowerStr text))))
    let words := (splitWs cleaned).filter (fun w => w.length > 2)
    if words.length > 0 && words.length ≤ 4 then
      let candidate := List.intercalate [' '] words
      if candidate.length > 3 && candidate.length < 40 &&
          !(isGenericText candidate) then
        some (capitalizeWords candidate)
      else none
    else none

/-- `/(?:building|creating|developing|working on)\s+(?:a\s+)?([a-zA-Z][a-zA-Z0-9\s]{3,25})/gi`. -/
def labelPattern1 : GPattern :=
  { pre := [RItem.lit [str "building", str "creating", str "developing",
                       str "working on"],
            RItem.rep isWs 1 none true,
            RItem.optLitWs [str "a"]],
    cap := [⟨alphaCls, 1, 1⟩, ⟨alnumWsCls, 3, 25⟩] }

/-- `/(?:project|app|application|tool)\s+(?:called\s+)?([a-zA-Z][a-zA-Z0-9\s]{3,25})/gi`. -/
def labelPattern2 : GPattern :=
  { pre := [RItem.lit [str "project", str "app", str "application", str "tool"],
            RItem.rep isWs 1 none true,
            RItem.optLitWs [str "called"]],
    cap := [⟨alphaCls, 1, 1⟩, ⟨alnumWsCls, 3, 25⟩] }

/-- `/help.*?(?:with|create|build)\s+([a-zA-Z][a-zA-Z0-9\s]{3,25})/gi`. -/
def labelPattern3 : GPattern :=
  { pre := [RItem.lit [str "help"],
            RItem.rep anyNoNl 0 none false,
            RItem.lit [str "with", str "create", str "build"],
            RItem.rep isWs 1 none true],
    cap := [⟨alphaCls, 1, 1⟩, ⟨alnumWsCls, 3, 25⟩] }

/-- The pattern loop of `generateSmartLabel`: for the first pattern with a
match, the first match's capture is taken when it passes the length and
genericity checks; otherwise the loop moves to the next pattern. -/
def firstLabelCandidate : List GPattern → Str → Option Str
  | [], _ => none
  | p :: ps, text =>
      match scanAll p text with
      | [] => firstLabelCandidate ps text
      | m :: _ =>
          let candidate := trimWs m
          if candidate.length > 3 && candidate.length < 30 &&
              !(isGenericText candidate) then
            some (capitalizeWords candidate)
          else firstLabelCandidate ps text

/-- `generateSmartLabel`. -/
def generateSmartLabel (allText : Str) (composerSessions : List ComposerSession)
    (prompts : List NormEntry) : Str :=
  let sessionCandidate : Option Str :=
    if composerSessions.length > 0 then
      let sessionNames := List.intercalate [' ']
        (((composerSessions.filter (fun c => c.name.length > 3)).map
          ComposerSession.name).take 3)
      match extractProjectName sessionNames with
      | some pn => if pn = str "Development Project" then none else some pn
      | none => none
    else none
  match sessionCandidate with
  | some pn => pn
  | none =>
    let promptCandidate : Option Str :=
      match prompts with
      | [] => none
      | p :: _ =>
          if p.text.length > 10 then
            match extractProjectName p.text with
            | some e => if e = str "Development Project" then none else some e
            | none => none
          else none
    match promptCandidate with
    | some e => e
    | none =>
      let technologies := detectTechnologies allText
      let projectType := determineProjectType allText
      let combo : Option Str :=
        match technologies with
        | t0 :: _ =>
            if projectType ≠ str "Unknown" then
              some (if projectType = str "MCP Development" then
                      t0 ++ str " MCP Server"
                    else t0 ++ str " " ++ projectType)
            else none
        | [] => none
      match combo with
      | some l => l
      | none =>
        match firstLabelCandidate [labelPattern1, labelPattern2, labelPattern3]
            allText with
        | some c => c
        | none =>
          match technologies with
          | t0 :: _ => t0 ++ str " Project"
          | [] =>
              if projectType ≠ str "Unknown" then projectType
              else str "Development Project"

-- ===== analysis.ts: metrics, confidence and the analysis record =====

/-- `timeInvestment` component. -/
structure TimeInvestment where
  totalHours : ℚ
  sessionsCount : Nat
  averageSessionLength : ℚ
deriving DecidableEq

/-- `metrics` component. -/
structure Metrics where
  promptCount : Nat
  generationCount : Nat
  codeChanges : Nat
  conversationThreads : Nat
deriving DecidableEq

/-- `WorkspaceAnalysis` (the `collaborators` field is never written and
stays empty). -/
structure WorkspaceAnalysis where
  id : Str
  smartLabel : Str
  projectType : Str
  technologies : List Str
  primaryTechnology : Str
  currentStatus : Str
  lastActivity : ℤ
  activitySummary : Str
  keyTopics : List Str
  collaborators : List Str
  problemsSolved : List Str
  currentGoals : List Str
  timeInvestment : TimeInvestment
  metrics : Metrics
  confidence : ℚ
deriving DecidableEq

/-- `Math.round(x * 10) / 10` (JavaScript rounds half toward `+∞`). -/
def jsRound10 (q : ℚ) : ℚ := ((⌊q * 10 + 1/2⌋ : ℤ) : ℚ) / 10

/-- `calculateTimeInvestment`. -/
def calculateTimeInvestment (conv : NormConv)
    (composerSessions : List ComposerSession) : TimeInvestment :=
  let sessions := if composerSessions.length = 0 then 1 else composerSessions.length
  let conversations := conv.prompts.length + conv.generations.length
  let estimatedHours : ℚ :=
    max (1/2) ((conversations : ℚ) * (1/10) + (sessions : ℚ) * (1/2))
  { totalHours := jsRound10 estimatedHours,
    sessionsCount := sessions,
    averageSessionLength := jsRound10 (estimatedHours / (sessions : ℚ)) }

/-- `getLastActivity`: the largest positive timestamp, or the current time
(`new Date()`) when there is none. -/
def getLastActivity (now : ℤ) (conv : NormConv) : ℤ :=
  let allTimestamps := (conv.prompts.map NormEntry.timestamp
    ++ conv.generations.map NormGen.timestamp).filter (fun t => t > 0)
  match allTimestamps with
  | [] => now
  | x :: xs => xs.foldl max x

/-- Decimal rendering of a count for the summary text. -/
def natToStr (n : Nat) : Str := (Nat.repr n).toList

/-- `generateActivitySummary` (it reads the metrics, primary technology
and project type of the analysis under construction). -/
def generateActivitySummary (metrics : Metrics) (primaryTech projType : Str) :
    Str :=
  let summary := projType ++ str " using " ++ primaryTech ++ str ". "
  let summary :=
    if metrics.codeChanges > 0 then
      summary ++ str "Active development with " ++ natToStr metrics.codeChanges
        ++ str " code modifications. "
    else summary
  let summary :=
    if metrics.promptCount > 10 then
      summary ++ str "Extensive conversation history ("
        ++ natToStr metrics.promptCount ++ str " prompts). "
    else summary
  trimWs summary

/-- `calculateConfidenceScore`. -/
def calculateConfidenceScore (analysis : WorkspaceAnalysis) (allText : Str) : ℚ :=
  let confidence : ℚ := 3/10
  let confidence :=
    if analysis.technologies.length > 0 then confidence + 2/10 else confidence
  let confidence :=
    if analysis.technologies.length > 2 then confidence + 1/10 else confidence
  let confidence :=
    if analysis.projectType ≠ str "Unknown" then confidence + 2/10 else confidence
  let confidence :=
    if analysis.smartLabel ≠ str "Development Project" then confidence + 2/10
    else confidence
  let confidence :=
    if analysis.metrics.promptCount > 5 then confidence + 1/10 else confidence
  let confidence :=
    if analysis.metrics.promptCount > 20 then confidence + 1/10 else confidence
  let confidence :=
    if analysis.metrics.codeChanges > 0 then confidence + 1/10 else confidence
  let confidence := if allText.length > 1000 then confidence + 1/10 else confidence
  min 1 confidence

/-- `analyzeWorkspaceContent`.  `now` makes the two wall-clock reads
(`Date.now()` during normalization, `new Date()` in `getLastActivity`)
explicit. -/
def analyzeWorkspaceContent (now : ℤ) (workspaceId : Str)
    (conversationData : ConversationData)
    (composerSessions : List ComposerSession) : WorkspaceAnalysis :=
  let normalizedPrompts := conversationData.prompts.map (normalizePrompt now)
  let normalizedGenerations :=
    conversationData.generations.map (normalizeGeneration now)
  let conv : NormConv := ⟨normalizedPrompts, normalizedGenerations⟩
  let metrics : Metrics :=
    { promptCount := normalizedPrompts.length,
      generationCount := normalizedGenerations.length,
      codeChanges :=
        (normalizedGenerations.filter (fun g => g.type == str "apply")).length,
      conversationThreads := composerSessions.length }
  let allText := lowerStr (List.intercalate [' ']
    (normalizedPrompts.map NormEntry.text
      ++ normalizedGenerations.map NormGen.text
      ++ composerSessions.map ComposerSession.name))
  let smartLabel := generateSmartLabel allText composerSessions normalizedPrompts
  let technologies := detectTechnologies allText
  let primaryTechnology :=
    match technologies with
    | [] => str "Unknown"
    | t0 :: _ => t0
  let projectType := determineProjectType allText
  let base : WorkspaceAnalysis :=
    { id := workspaceId,
      smartLabel := smartLabel,
      projectType := projectType,
      technologies := technologies,
      primaryTechnology := primaryTechnology,
      currentStatus := detectProjectStatus conv,
      lastActivity := getLastActivity now conv,
      activitySummary := generateActivitySummary metrics primaryTechnology projectType,
      keyTopics := extractKeyTopics allText,
      collaborators := [],
      problemsSolved := extractProblemsSolved allText,
      currentGoals := extractCurrentGoals allText,
      timeInvestment := calculateTimeInvestment conv composerSessions,
      metrics := metrics,
      confidence := 0 }
  { base with confidence := calculateConfidenceScore base allText }

-- ===== Specification-side definitions used to state the claims =====

/-- The confidence formula exactly as the specification words it: base
`0.3` plus the fixed gated increments, clamped to `[0, 1]`. -/
def specConfidenceScore (analysis : WorkspaceAnalysis) (allText : Str) : ℚ :=
  max 0 (min 1
    (3/10
      + (if analysis.technologies.length > 0 then (2/10 : ℚ) else 0)
      + (if analysis.technologies.length > 2 then (1/10 : ℚ) else 0)
      + (if analysis.projectType ≠ str "Unknown" then (2/10 : ℚ) else 0)
      + (if analysis.smartLabel ≠ str "Development Project" then (2/10 : ℚ) else 0)
      + (if analysis.metrics.promptCount > 5 then (1/10 : ℚ) else 0)
      + (if analysis.metrics.promptCount > 20 then (1/10 : ℚ) else 0)
      + (if analysis.metrics.codeChanges > 0 then (1/10 : ℚ) else 0)
      + (if allText.length > 1000 then (1/10 : ℚ) else 0)))

/-- Modelled from the spec (claim C9's reading): the `n` most recent
conversation entries — prompts and generations pooled and ordered by
descending timestamp — as `(text, timestamp)` pairs. -/
def recentEntries (n : Nat) (conv : NormConv) : List (Str × ℤ) :=
  (sortDescBy Prod.snd
    (conv.prompts.map (fun p => (p.text, p.timestamp))
      ++ conv.generations.map (fun g => (g.text, g.timestamp)))).take n

/-- Every prompt and generation carries an explicit positive timestamp
(the regime in which no wall-clock default fires). -/
def allTimestampsPresent (d : ConversationData) : Bool :=
  d.prompts.all (fun p =>
    match p.unixMs with
    | some t => t > 0
    | none => false) &&
  d.generations.all (fun g =>
    match g.unixMs with
    | some t => t > 0
    | none => false)

/-- Whether a JavaScript numeric outcome is an ordinary number lying in
`[0, 1]` (`NaN` and a thrown exception are not). -/
def outcomeIn01 (o : JSOutcome) : Prop :=
  ∃ q : ℚ, o = JSOutcome.num q ∧ 0 ≤ q ∧ q ≤ 1

-- ===== Helper lemmas: prefixes, substrings and occurrence counts =====

theorem listPrefixOf_length_le (p l : Str) (h : listPrefixOf p l = true) :
    p.length ≤ l.length := by
  induction p generalizing l with
  | nil => simp
  | cons a as ih =>
    cases l with
    | nil => simp [listPrefixOf] at h
    | cons b bs =>
      simp only [listPrefixOf, Bool.and_eq_true] at h
      simpa [List.length_cons] using Nat.succ_le_succ (ih bs h.2)

theorem listPrefixOf_append (p l u : Str) (h : listPrefixOf p l = true) :
    listPrefixOf p (l ++ u) = true := by
  induction p generalizing l with
  | nil => simp [listPrefixOf]
  | cons a as ih =>
    cases l with
    | nil => simp [listPrefixOf] at h
    | cons b bs =>
      simp only [List.cons_append, listPrefixOf, Bool.and_eq_true] at h ⊢
      exact ⟨h.1, ih bs h.2⟩

theorem listPrefixOf_append_short (p l u : Str) (h1 : listPrefixOf p (l ++ u) = true)
    (h2 : listPrefixOf p l = false) : l.length < p.length := by
  induction p generalizing l with
  | nil => simp [listPrefixOf] at h2
  | cons a as ih =>
    cases l with
    | nil => simp
    | cons b bs =>
      simp only [List.cons_append, listPrefixOf, Bool.and_eq_true] at h1
      have hb : listPrefixOf as bs = false := by
        by_contra hc
        rw [Bool.not_eq_false] at hc
        simp [listPrefixOf, h1.1, hc] at h2
      simpa [List.length_cons] using Nat.succ_lt_succ (ih bs h1.2 hb)

theorem strIncludes_nil_needle (l : Str) : strIncludes l [] = true := by
  cases l <;> simp [strIncludes, listPrefixOf]

theorem strIncludes_append (l n u : Str) (h : strIncludes l n = true) :
    strIncludes (l ++ u) n = true := by
  induction l with
  | nil =>
    simp only [strIncludes, List.isEmpty_iff] at h
    subst h
    simpa using strIncludes_nil_needle u
  | cons c t ih =>
    simp only [strIncludes, Bool.or_eq_true] at h
    rcases h with h | h
    · simp only [List.cons_append, strIncludes, Bool.or_eq_true]
      exact Or.inl (listPrefixOf_append _ _ _ h)
    · simp only [List.cons_append, strIncludes, Bool.or_eq_true]
      exact Or.inr (ih h)

theorem countOccAux_zero_of_short (n l : Str) (sk : Nat) (h : l.length < n.length) :
    countOccAux n sk l = 0 := by
  induction l generalizing sk with
  | nil => cases sk <;> rfl
  | cons c t ih =>
    have ht : t.length < n.length := Nat.lt_of_succ_lt (by simpa using h)
    cases sk with
    | succ k => simpa [countOccAux] using ih k ht
    | zero =>
      cases hp : listPrefixOf n (c :: t) with
      | false => simpa [countOccAux, hp] using ih 0 ht
      | true =>
        have := listPrefixOf_length_le n (c :: t) hp
        simp [List.length_cons] at this h
        omega

theorem countOccAux_append (n l u : Str) (sk : Nat) :
    countOccAux n sk l ≤ countOccAux n sk (l ++ u) := by
  induction l generalizing sk with
  | nil =>
    have hz : countOccAux n sk ([] : Str) = 0 := by cases sk <;> rfl
    simp [hz]
  | cons c t ih =>
    cases sk with
    | succ k => simpa [countOccAux] using ih k
    | zero =>
      cases hp2 : listPrefixOf n (c :: (t ++ u)) with
      | false =>
        have hp1 : listPrefixOf n (c :: t) = false := by
          by_contra hc
          rw [Bool.not_eq_false] at hc
          have := listPrefixOf_append n (c :: t) u hc
          simp only [List.cons_append] at this
          simp [this] at hp2
        simpa [countOccAux, hp1, hp2, List.cons_append] using ih 0
      | true =>
        cases hp1 : listPrefixOf n (c :: t) with
        | true =>
          simpa [countOccAux, hp1, hp2, List.cons_append] using
            Nat.add_le_add_left (ih (n.length - 1)) 1
        | false =>
          have hshort : (c :: t).length < n.length :=
            listPrefixOf_append_short n (c :: t) u (by simpa [List.cons_append] using hp2) hp1
          have hz : countOccAux n 0 t = 0 :=
            countOccAux_zero_of_short n t 0 (Nat.lt_of_succ_lt (by simpa using hshort))
          simp [countOccAux, hp1, hp2, List.cons_append, hz]

theorem countOcc_append (l n u : Str) : countOcc l n ≤ countOcc (l ++ u) n := by
  unfold countOcc
  cases hn : n.isEmpty with
  | true => simp [List.length_append]
  | false => simpa using countOccAux_append n l u 0

-- ===== Helper lemmas: the relevance scorer =====

theorem matchedFreqSum_cons (text t : Str) (ts : List Str) :
    matchedFreqSum text (t :: ts) =
      (if strIncludes text t then countOcc text t else 0) + matchedFreqSum text ts := by
  simp [matchedFreqSum]

theorem matchedCount_cons (text t : Str) (ts : List Str) :
    matchedCount text (t :: ts) =
      matchedCount text ts + (if strIncludes text t then 1 else 0) := by
  simp [matchedCount, List.countP_cons]

theorem relevanceLoop_closed (text : Str) (ts : List Str) (a : ℚ) (m : Nat)
    (h : ∀ t ∈ ts, strIncludes text t = true → regexThrows t = false) :
    relevanceLoop text a m ts =
      some (a + (matchedFreqSum text ts : ℚ) * (1/10), m + matchedCount text ts) := by
  induction ts generalizing a m with
  | nil => simp [relevanceLoop, matchedFreqSum, matchedCount]
  | cons t ts ih =>
    by_cases hin : strIncludes text t = true
    · have hth : regexThrows t = false := h t (by simp) hin
      rw [relevanceLoop, if_pos hin, if_neg (by simp [hth])]
      rw [ih _ _ (fun t2 ht2 => h t2 (by simp [ht2]))]
      rw [matchedFreqSum_cons, matchedCount_cons]
      simp only [hin, if_true, Option.some.injEq, Prod.mk.injEq]
      constructor
      · push_cast
        ring
      · omega
    · have hin2 : strIncludes text t = false := by
        simpa using hin
      rw [relevanceLoop, if_neg (by simp [hin2])]
      rw [ih _ _ (fun t2 ht2 => h t2 (by simp [ht2]))]
      rw [matchedFreqSum_cons, matchedCount_cons]
      simp [hin2]

theorem clamp_min_eq_max_min (x y : ℚ) (hx : 0 ≤ x) (hxy : x = y) :
    min x 1 = max 0 (min 1 y) := by
  subst hxy
  rw [min_comm, max_eq_right (le_min zero_le_one hx)]

theorem calcRel_eq_spec (text : Str) (ts : List Str) (st : SearchType)
    (hne : ts ≠ [])
    (h : ∀ t ∈ ts, strIncludes text t = true → regexThrows t = false) :
    calculateRelevanceScore text ts st =
      JSOutcome.num (specRelevanceScore text ts st) := by
  have hlen : ts.length ≠ 0 := by
    simpa using fun hl => hne (List.length_eq_zero.mp hl)
  have hL : (0:ℚ) ≤ (ts.length : ℚ) := by positivity
  unfold calculateRelevanceScore specRelevanceScore
  rw [relevanceLoop_closed text ts 0 0 h]
  simp only [hlen, if_false, zero_add, Nat.cast_ofNat, matchedCount]
  cases st <;>
    simp only [typeBoost] <;>
    first
    | · split_ifs with hb <;>
        · refine congrArg JSOutcome.num (clamp_min_eq_max_min _ _ (by positivity) (by ring))
    | · refine congrArg JSOutcome.num (clamp_min_eq_max_min _ _ (by positivity) (by ring))

theorem specRel_mem01 (text : Str) (ts : List Str) (st : SearchType) :
    0 ≤ specRelevanceScore text ts st ∧ specRelevanceScore text ts st ≤ 1 :=
  ⟨le_max_left 0 _, max_le (by norm_num) (min_le_left 1 _)⟩

theorem isQuant_cases (c : Char) (h : isQuant c = true) :
    c = '*' ∨ c = '+' ∨ c = '?' := by
  simp only [isQuant, Bool.or_eq_true, beq_iff_eq] at h
  tauto

theorem regexBadFrom_false_of_no_quant (t : Str) (h : ∀ c ∈ t, isQuant c = false) :
    ∀ st2 : RState, regexBadFrom st2 t = false := by
  induction t with
  | nil => intro st2; cases st2 <;> rfl
  | cons c rest ih =>
    intro st2
    have hc : isQuant c = false := h c (by simp)
    have hq : (c == '?') = false := by
      by_contra hb
      rw [Bool.not_eq_false, beq_iff_eq] at hb
      subst hb
      simp [isQuant] at hc
    have ih2 := ih (fun d hd => h d (by simp [hd]))
    cases st2 <;> simp [regexBadFrom, hc, hq, ih2]

theorem plainTerm_no_throw (t : Str) (h : plainTerm t = true) :
    regexThrows t = false := by
  apply regexBadFrom_false_of_no_quant
  intro c hc
  have hch := List.all_eq_true.mp h c hc
  simp only [Bool.or_eq_true] at hch
  cases hg : isQuant c with
  | false => rfl
  | true =>
    exfalso
    rcases isQuant_cases c hg with rfl | rfl | rfl <;> simp [isWordChar] at hch

theorem anyIncludes_append (ks : List Str) (text u : Str)
    (h : ks.any (fun k => strIncludes text k) = true) :
    ks.any (fun k => strIncludes (text ++ u) k) = true := by
  simp only [List.any_eq_true] at h ⊢
  obtain ⟨k, hk, hik⟩ := h
  exact ⟨k, hk, strIncludes_append _ _ _ hik⟩

theorem containsTechnicalTerms_append (text u : Str)
    (h : containsTechnicalTerms text = true) :
    containsTechnicalTerms (text ++ u) = true := by
  unfold containsTechnicalTerms at h ⊢
  exact anyIncludes_append _ _ _ h

theorem containsProblemKeywords_append (text u : Str)
    (h : containsProblemKeywords text = true) :
    containsProblemKeywords (text ++ u) = true := by
  unfold containsProblemKeywords at h ⊢
  exact anyIncludes_append _ _ _ h

theorem containsSolutionKeywords_append (text u : Str)
    (h : containsSolutionKeywords text = true) :
    containsSolutionKeywords (text ++ u) = true := by
  unfold containsSolutionKeywords at h ⊢
  exact anyIncludes_append _ _ _ h

theorem typeBoost_nonneg (text : Str) (st : SearchType) : 0 ≤ typeBoost text st := by
  cases st <;> simp only [typeBoost] <;>
    first
    | (split_ifs <;> norm_num)
    | norm_num

theorem typeBoost_append_le (text u : Str) (st : SearchType) :
    typeBoost text st ≤ typeBoost (text ++ u) st := by
  cases st <;> simp only [typeBoost] <;>
    first
    | (split_ifs with h1 h2 <;>
        first
        | exact absurd (containsTechnicalTerms_append _ _ h1) h2
        | exact absurd (containsProblemKeywords_append _ _ h1) h2
        | exact absurd (containsSolutionKeywords_append _ _ h1) h2
        | norm_num)
    | norm_num

theorem matchedFreqSum_append (text u : Str) (ts : List Str) :
    matchedFreqSum text ts ≤ matchedFreqSum (text ++ u) ts := by
  unfold matchedFreqSum
  apply List.sum_le_sum
  intro t _
  by_cases h : strIncludes text t = true
  · rw [if_pos h, if_pos (strIncludes_append _ _ _ h)]
    exact countOcc_append _ _ _
  · rw [if_neg h]
    exact Nat.zero_le _

theorem matchedCount_append (text u : Str) (ts : List Str) :
    matchedCount text ts ≤ matchedCount (text ++ u) ts :=
  List.countP_mono_left (fun t _ ht => strIncludes_append _ _ _ ht)

theorem specRel_append_mono (text u : Str) (ts : List Str) (st : SearchType)
    (hne : ts ≠ []) :
    specRelevanceScore text ts st ≤ specRelevanceScore (text ++ u) ts st := by
  have hlen : ts.length ≠ 0 := by
    simpa using fun hl => hne (List.length_eq_zero.mp hl)
  have hL : (0:ℚ) < (ts.length : ℚ) := by
    exact_mod_cast Nat.pos_of_ne_zero hlen
  have hX12 :
      (matchedFreqSum text ts : ℚ) * (1/10)
        + ((matchedCount text ts : ℚ) / (ts.length : ℚ)) * (1/2) ≤
      (matchedFreqSum (text ++ u) ts : ℚ) * (1/10)
        + ((matchedCount (text ++ u) ts : ℚ) / (ts.length : ℚ)) * (1/2) := by
    apply add_le_add
    · apply mul_le_mul_of_nonneg_right _ (by norm_num)
      exact_mod_cast matchedFreqSum_append text u ts
    · apply mul_le_mul_of_nonneg_right _ (by norm_num)
      apply (div_le_div_right hL).mpr
      exact_mod_cast matchedCount_append text u ts
  unfold specRelevanceScore
  apply max_le_max (le_refl 0)
  apply min_le_min (le_refl 1)
  apply mul_le_mul hX12 (typeBoost_append_le text u st) (typeBoost_nonneg text st)
  positivity

-- ===== Helper lemmas: confidence scorer =====

theorem ite_add_shift (p : Prop) [Decidable p] (c k : ℚ) :
    (if p then c + k else c) = c + (if p then k else 0) := by
  split <;> simp

theorem ite_nonneg_q (p : Prop) [Decidable p] (k : ℚ) (hk : 0 ≤ k) :
    0 ≤ (if p then k else 0) := by
  split
  · exact hk
  · exact le_refl 0

theorem calcConf_eq_spec (a : WorkspaceAnalysis) (t : Str) :
    calculateConfidenceScore a t = specConfidenceScore a t := by
  unfold calculateConfidenceScore specConfidenceScore
  simp only [ite_add_shift]
  rw [max_eq_right]
  apply le_min zero_le_one
  repeat' apply add_nonneg
  all_goals (first | (split <;> norm_num) | norm_num)

theorem conf_bounds (a : WorkspaceAnalysis) (t : Str) :
    0 ≤ calculateConfidenceScore a t ∧ calculateConfidenceScore a t ≤ 1 := by
  rw [calcConf_eq_spec]
  exact ⟨le_max_left 0 _, max_le (by norm_num) (min_le_left 1 _)⟩

-- ===== Helper lemmas: session similarity =====

theorem scoreSimilarity_mem01 (a b : Str) :
    0 ≤ scoreSimilarity a b ∧ scoreSimilarity a b ≤ 1 := by
  unfold scoreSimilarity
  constructor
  · positivity
  · apply div_le_one_of_le
    · exact_mod_cast le_trans (List.length_filter_le _ _) (le_max_left _ 1)
    · positivity

theorem scoreSimilarity_all_found (a b : Str)
    (h : ∀ k ∈ extractTopics (lowerStr a), strIncludes (lowerStr b) k = true)
    (hne : extractTopics (lowerStr a) ≠ []) :
    scoreSimilarity a b = 1 := by
  simp only [scoreSimilarity]
  rw [List.filter_eq_self.mpr]
  · have h1 : 1 ≤ (extractTopics (lowerStr a)).length :=
      Nat.one_le_iff_ne_zero.mpr (fun hl => hne (List.length_eq_zero.mp hl))
    rw [max_eq_left (by exact_mod_cast h1 : (1:ℚ) ≤ ((extractTopics (lowerStr a)).length : ℚ))]
    apply div_self
    have h2 : (0:ℕ) < (extractTopics (lowerStr a)).length := h1
    positivity
  · intro k hk
    simp [h k hk]

-- ===== Helper lemmas: status window and clock independence =====

theorem detectProjectStatus_window (c1 c2 : NormConv)
    (hp : (lastN 5 c1.prompts).map NormEntry.text
            = (lastN 5 c2.prompts).map NormEntry.text)
    (hg : (lastN 5 c1.generations).map NormGen.text
            = (lastN 5 c2.generations).map NormGen.text) :
    detectProjectStatus c1 = detectProjectStatus c2 := by
  unfold detectProjectStatus
  rw [hp, hg]

theorem normalizePrompt_clock_indep (n1 n2 : ℤ) (p : RawPrompt) (t : ℤ)
    (hm : p.unixMs = some t) (h0 : t ≠ 0) :
    normalizePrompt n1 p = normalizePrompt n2 p := by
  simp [normalizePrompt, intOrElse, hm, h0]

theorem normalizeGeneration_clock_indep (n1 n2 : ℤ) (g : RawGeneration) (t : ℤ)
    (hm : g.unixMs = some t) (h0 : t ≠ 0) :
    normalizeGeneration n1 g = normalizeGeneration n2 g := by
  simp [normalizeGeneration, intOrElse, hm, h0]

theorem getLastActivity_clock_indep (n1 n2 : ℤ) (conv : NormConv)
    (h : ((conv.prompts.map NormEntry.timestamp
            ++ conv.generations.map NormGen.timestamp).filter
              (fun t => t > 0)) ≠ []) :
    getLastActivity n1 conv = getLastActivity n2 conv := by
  unfold getLastActivity
  rcases hl : ((conv.prompts.map NormEntry.timestamp
      ++ conv.generations.map NormGen.timestamp).filter (fun t => t > 0)) with _ | ⟨x, xs⟩
  · exact absurd hl h
  · simp only [hl]

-- ===== Helper lemmas: analysis record bounds and empty input =====

theorem detectTechnologies_len_le (text : Str) : (detectTechnologies text).length ≤ 5 := by
  simp only [detectTechnologies, List.length_map, List.length_take]
  omega

theorem extractKeyTopics_len_le (text : Str) : (extractKeyTopics text).length ≤ 8 := by
  simp only [extractKeyTopics, List.length_map, List.length_take]
  omega

theorem analyze_bounds (now : ℤ) (w : Str) (d : ConversationData)
    (cs : List ComposerSession) :
    (analyzeWorkspaceContent now w d cs).technologies.length ≤ 5 ∧
    (analyzeWorkspaceContent now w d cs).keyTopics.length ≤ 8 ∧
    0 ≤ (analyzeWorkspaceContent now w d cs).confidence ∧
    (analyzeWorkspaceContent now w d cs).confidence ≤ 1 := by
  refine ⟨?_, ?_, ?_, ?_⟩ <;> simp only [analyzeWorkspaceContent]
  · exact detectTechnologies_len_le _
  · exact extractKeyTopics_len_le _
  · exact (conf_bounds _ _).1
  · exact (conf_bounds _ _).2

theorem calcConf_of_empty (a : WorkspaceAnalysis) (t : Str)
    (h1 : a.technologies = []) (h2 : a.projectType = str "Unknown")
    (h3 : a.smartLabel = str "Development Project")
    (h4 : a.metrics.promptCount = 0) (h5 : a.metrics.codeChanges = 0)
    (h6 : t.length ≤ 1000) :
    calculateConfidenceScore a t = 3/10 := by
  have h7 : ¬ (t.length > 1000) := by omega
  unfold calculateConfidenceScore
  rw [h1, h2, h3, h4, h5]
  simp only [List.length_nil, h7, if_neg, gt_iff_lt, lt_irrefl, if_false, ne_eq,
    not_true_eq_false, Nat.not_lt_zero, Nat.lt_irrefl]
  norm_num

theorem analyze_clock_indep (n1 n2 : ℤ) (w : Str) (d : ConversationData)
    (cs : List ComposerSession)
    (h : allTimestampsPresent d = true)
    (hne : d.prompts ≠ [] ∨ d.generations ≠ []) :
    analyzeWorkspaceContent n1 w d cs = analyzeWorkspaceContent n2 w d cs := by
  simp only [allTimestampsPresent, Bool.and_eq_true, List.all_eq_true] at h
  obtain ⟨hP, hG⟩ := h
  have hp : d.prompts.map (normalizePrompt n1) = d.prompts.map (normalizePrompt n2) := by
    apply List.map_congr_left
    intro p hpm
    have h2 := hP p hpm
    rcases hm : p.unixMs with _ | t
    · rw [hm] at h2; simp at h2
    · rw [hm] at h2
      simp only [decide_eq_true_eq] at h2
      exact normalizePrompt_clock_indep n1 n2 p t hm (by omega)
  have hg : d.generations.map (normalizeGeneration n1)
      = d.generations.map (normalizeGeneration n2) := by
    apply List.map_congr_left
    intro g hgm
    have h2 := hG g hgm
    rcases hm : g.unixMs with _ | t
    · rw [hm] at h2; simp at h2
    · rw [hm] at h2
      simp only [decide_eq_true_eq] at h2
      exact normalizeGeneration_clock_indep n1 n2 g t hm (by omega)
  have hex : ∃ t0 ∈ ((d.prompts.map (normalizePrompt n2)).map NormEntry.timestamp
      ++ (d.generations.map (normalizeGeneration n2)).map NormGen.timestamp), 0 < t0 := by
    rcases hne with hne | hne
    · rcases hd : d.prompts with _ | ⟨p0, ps⟩
      · exact absurd hd hne
      · have h2 := hP p0 (by rw [hd]; exact List.mem_cons_self _ _)
        rcases hm : p0.unixMs with _ | t0
        · rw [hm] at h2; simp at h2
        · rw [hm] at h2; simp only [decide_eq_true_eq] at h2
          refine ⟨t0, ?_, h2⟩
          apply List.mem_append_left
          apply List.mem_map.mpr
          refine ⟨normalizePrompt n2 p0,
            List.mem_map.mpr ⟨p0, by simp [hd], rfl⟩, ?_⟩
          simp only [normalizePrompt, hm, intOrElse]
          rw [if_neg (by omega : ¬ t0 = 0)]
    · rcases hd : d.generations with _ | ⟨g0, gs⟩
      · exact absurd hd hne
      · have h2 := hG g0 (by rw [hd]; exact List.mem_cons_self _ _)
        rcases hm : g0.unixMs with _ | t0
        · rw [hm] at h2; simp at h2
        · rw [hm] at h2; simp only [decide_eq_true_eq] at h2
          refine ⟨t0, ?_, h2⟩
          apply List.mem_append_right
          apply List.mem_map.mpr
          refine ⟨normalizeGeneration n2 g0,
            List.mem_map.mpr ⟨g0, by simp [hd], rfl⟩, ?_⟩
          simp only [normalizeGeneration, hm, intOrElse]
          rw [if_neg (by omega : ¬ t0 = 0)]
  have hl : getLastActivity n1 ⟨d.prompts.map (normalizePrompt n2),
      d.generations.map (normalizeGeneration n2)⟩
      = getLastActivity n2 ⟨d.prompts.map (normalizePrompt n2),
      d.generations.map (normalizeGeneration n2)⟩ := by
    apply getLastActivity_clock_indep
    obtain ⟨t0, hmem, hpos⟩ := hex
    exact List.ne_nil_of_mem (List.mem_filter.mpr ⟨hmem, by simpa using hpos⟩)
  simp only [analyzeWorkspaceContent, hp, hg, hl]

-- ===== Claim theorems =====

/-- C1 counterexample: as stated over every input, the claim fails — with
an empty query-term list the relevance scorer performs `0/0` and returns
`NaN`, which is not a number in `[0, 1]`. -/
theorem C1_counterexample :
    ¬ outcomeIn01 (calculateRelevanceScore (str "hello world") [] SearchType.content) := by
  rw [show calculateRelevanceScore (str "hello world") [] SearchType.content
      = JSOutcome.nan from rfl]
  rintro ⟨q, hq, _⟩
  exact JSOutcome.noConfusion hq

/-- C1 (amended): every analysis result has `technologies.length ≤ 5`,
`keyTopics.length ≤ 8` and `confidence ∈ [0,1]`; every relevance score for
a non-empty list of plain query terms is a number in `[0,1]` (an empty
list yields `NaN` instead); every similarity score is in `[0,1]`. -/
theorem C1_bounded_scores :
    (∀ (now : ℤ) (w : Str) (d : ConversationData) (cs : List ComposerSession),
      (analyzeWorkspaceContent now w d cs).technologies.length ≤ 5 ∧
      (analyzeWorkspaceContent now w d cs).keyTopics.length ≤ 8 ∧
      0 ≤ (analyzeWorkspaceContent now w d cs).confidence ∧
      (analyzeWorkspaceContent now w d cs).confidence ≤ 1) ∧
    (∀ (text : Str) (ts : List Str) (st : SearchType), ts ≠ [] →
      (∀ t ∈ ts, plainTerm t = true) →
      ∃ q : ℚ, calculateRelevanceScore text ts st = JSOutcome.num q ∧
        0 ≤ q ∧ q ≤ 1) ∧
    (∀ a b : Str, 0 ≤ scoreSimilarity a b ∧ scoreSimilarity a b ≤ 1) := by
  refine ⟨analyze_bounds, ?_, scoreSimilarity_mem01⟩
  intro text ts st hne hpl
  exact ⟨specRelevanceScore text ts st,
    calcRel_eq_spec text ts st hne (fun t ht _ => plainTerm_no_throw t (hpl t ht)),
    (specRel_mem01 text ts st).1, (specRel_mem01 text ts st).2⟩

/-- C1 witness: the bounds hold at concrete inputs. -/
theorem C1_witness :
    (analyzeWorkspaceContent 0 (str "w") ⟨[], []⟩ []).technologies.length ≤ 5 ∧
    (∃ q : ℚ, calculateRelevanceScore (str "react app") [str "react"]
        SearchType.content = JSOutcome.num q ∧ 0 ≤ q ∧ q ≤ 1) ∧
    0 ≤ scoreSimilarity (str "alpha") (str "beta") :=
  ⟨(C1_bounded_scores.1 0 (str "w") ⟨[], []⟩ []).1,
   C1_bounded_scores.2.1 (str "react app") [str "react"] SearchType.content
     (by decide) (by decide),
   (C1_bounded_scores.2.2 (str "alpha") (str "beta")).1⟩

/-- C2 counterexample: for the query term `c++` (length 3, occurring in
the document) the scorer does not return the claimed clamped value — the
`RegExp` constructor throws, so no number is produced at all. -/
theorem C2_counterexample :
    calculateRelevanceScore (str "i use c++ here") [str "c++"] SearchType.content ≠
      JSOutcome.num
        (specRelevanceScore (str "i use c++ here") [str "c++"] SearchType.content) := by
  rw [show calculateRelevanceScore (str "i use c++ here") [str "c++"]
      SearchType.content = JSOutcome.thrown from rfl]
  exact fun h => JSOutcome.noConfusion h

/-- C2 (amended): for every document, every non-empty list of plain
(regex-metacharacter-free) query terms and every search type, the
relevance score equals the clamp to `[0,1]` of the frequency sum times
`0.1`, plus `matched/total * 0.5`, times `1.5` on a matching search-type
hint. -/
theorem C2_relevance_formula (text : Str) (ts : List Str) (st : SearchType)
    (hne : ts ≠ []) (hpl : ∀ t ∈ ts, plainTerm t = true) :
    calculateRelevanceScore text ts st =
      JSOutcome.num (specRelevanceScore text ts st) :=
  calcRel_eq_spec text ts st hne (fun t ht _ => plainTerm_no_throw t (hpl t ht))

/-- C2 witness: the formula equality at a concrete input. -/
theorem C2_witness :
    calculateRelevanceScore (str "react app with react") [str "react", str "app"]
      SearchType.content =
      JSOutcome.num (specRelevanceScore (str "react app with react")
        [str "react", str "app"] SearchType.content) :=
  C2_relevance_formula (str "react app with react") [str "react", str "app"]
    SearchType.content (by decide) (by decide)

/-- C3 counterexample: the similarity of `findRelatedSessionsImpl` divides
by `max(|A|, 1)` only (not `max(|A|,|B|,1)`), so swapping the search and
session sides changes the score: 1 versus 1/2 here. -/
theorem C3_counterexample :
    scoreSimilarity (str "alpha") (str "alpha beta") ≠
      scoreSimilarity (str "alpha beta") (str "alpha") := by
  have h1 : scoreSimilarity (str "alpha") (str "alpha beta")
      = ((1:ℕ):ℚ) / (max ((1:ℕ):ℚ) 1) := rfl
  have h2 : scoreSimilarity (str "alpha beta") (str "alpha")
      = ((1:ℕ):ℚ) / (max ((2:ℕ):ℚ) 1) := rfl
  rw [h1, h2]
  norm_num

/-- C3 (amended): the score is the fraction of the search side's topics
found in the session (as a topic or verbatim in the session text) over
`max(|searchTopics|, 1)`; in particular it is `1` whenever every search
topic occurs in the session text, regardless of the session's own topic
count — so the formula is one-sided and not symmetric. -/
theorem C3_similarity_one_sided (a b : Str)
    (h : ∀ k ∈ extractTopics (lowerStr a), strIncludes (lowerStr b) k = true)
    (hne : extractTopics (lowerStr a) ≠ []) :
    scoreSimilarity a b = 1 :=
  scoreSimilarity_all_found a b h hne

/-- C3 witness: a one-topic search inside a two-topic session scores 1. -/
theorem C3_witness : scoreSimilarity (str "alpha") (str "alpha beta") = 1 :=
  C3_similarity_one_sided (str "alpha") (str "alpha beta") (by decide) (by decide)

/-- C4: on empty prompts, generations and sessions, the analysis reports
project type `Unknown`, smart label `Development Project` and confidence
exactly `0.3`. -/
theorem C4_empty_input_defaults (now : ℤ) (w : Str) :
    (analyzeWorkspaceContent now w ⟨[], []⟩ []).projectType = str "Unknown" ∧
    (analyzeWorkspaceContent now w ⟨[], []⟩ []).smartLabel = str "Development Project" ∧
    (analyzeWorkspaceContent now w ⟨[], []⟩ []).confidence = 3/10 := by
  have hI : List.intercalate ([' '] : Str) ([] : List Str) = [] := rfl
  have hP : determineProjectType [] = str "Unknown" := by decide
  have hS : generateSmartLabel [] [] [] = str "Development Project" := by decide
  have hT : detectTechnologies [] = [] := by decide
  refine ⟨?_, ?_, ?_⟩ <;>
    simp only [analyzeWorkspaceContent, List.map_nil, List.nil_append, List.append_nil,
      hI, lowerStr, hP, hS, hT, List.length_nil, List.filter_nil]
  exact calcConf_of_empty _ _ rfl rfl rfl rfl rfl (by simp)

/-- C5: the confidence score equals the specification's additive model —
base 0.3 plus the fixed gated increments, clamped to `[0,1]` (the code's
`Math.min(1, ·)` coincides with the clamp because the sum is never
negative). -/
theorem C5_confidence_formula (a : WorkspaceAnalysis) (t : Str) :
    calculateConfidenceScore a t = specConfidenceScore a t :=
  calcConf_eq_spec a t

/-- C6 counterexample: `analyze` is not a pure function of its declared
inputs — on a conversation with no timestamps, `lastActivity` is the wall
clock, so two calls at different times differ. -/
theorem C6_counterexample :
    analyzeWorkspaceContent 0 (str "w") ⟨[], []⟩ [] ≠
      analyzeWorkspaceContent 1 (str "w") ⟨[], []⟩ [] := by
  intro h
  have h2 := congrArg WorkspaceAnalysis.lastActivity h
  rw [show (analyzeWorkspaceContent 0 (str "w") ⟨[], []⟩ []).lastActivity = 0 from rfl,
      show (analyzeWorkspaceContent 1 (str "w") ⟨[], []⟩ []).lastActivity = 1 from rfl] at h2
  exact absurd h2 (by decide)

/-- C6 (amended): `analyze` is deterministic whenever every prompt and
generation carries a positive `unixMs` and the conversation is non-empty;
only then is no wall-clock default consulted. (`scoreRelevance` and
`scoreSimilarity` read no clock at all and are pure functions of their
arguments.) -/
theorem C6_deterministic_with_timestamps (n1 n2 : ℤ) (w : Str)
    (d : ConversationData) (cs : List ComposerSession)
    (h : allTimestampsPresent d = true)
    (hne : d.prompts ≠ [] ∨ d.generations ≠ []) :
    analyzeWorkspaceContent n1 w d cs = analyzeWorkspaceContent n2 w d cs :=
  analyze_clock_indep n1 n2 w d cs h hne

/-- C6 witness: with an explicit positive timestamp the result is
clock-independent. -/
theorem C6_witness :
    analyzeWorkspaceContent 0 (str "w")
        ⟨[⟨some 5, none, some (str "hi"), none⟩], []⟩ [] =
      analyzeWorkspaceContent 1 (str "w")
        ⟨[⟨some 5, none, some (str "hi"), none⟩], []⟩ [] :=
  C6_deterministic_with_timestamps 0 1 (str "w")
    ⟨[⟨some 5, none, some (str "hi"), none⟩], []⟩ [] (by decide) (Or.inl (by decide))

/-- C7 counterexample: with no query term longer than 2 characters the
relevance score is `NaN` (`0/0` in JavaScript), not the claimed `0`. -/
theorem C7_counterexample :
    calculateRelevanceScore (str "any document text") (tokenizeQuery (str "a b"))
      SearchType.content ≠ JSOutcome.num 0 := by
  rw [show calculateRelevanceScore (str "any document text")
      (tokenizeQuery (str "a b")) SearchType.content = JSOutcome.nan from rfl]
  exact fun h => JSOutcome.noConfusion h

/-- C7 (amended): a query with zero terms of length > 2 produces the
relevance score `NaN` for every document and search type — no exception
and no division-by-zero error is raised, and the caller's `> 0.1`
threshold silently discards such results (`NaN > 0.1` is false). -/
theorem C7_empty_query_nan (text q : Str) (st : SearchType)
    (h : ∀ t ∈ splitWs (lowerStr q), t.length ≤ 2) :
    calculateRelevanceScore text (tokenizeQuery q) st = JSOutcome.nan := by
  have h0 : tokenizeQuery q = [] := by
    simp only [tokenizeQuery, List.filter_eq_nil_iff]
    intro t ht
    have := h t ht
    simp only [decide_eq_true_eq]
    omega
  rw [h0]
  rfl

/-- C7 witness: the query "a b" tokenizes to nothing and scores `NaN`. -/
theorem C7_witness :
    calculateRelevanceScore (str "some text") (tokenizeQuery (str "a b"))
      SearchType.all = JSOutcome.nan :=
  C7_empty_query_nan (str "some text") (str "a b") SearchType.all (by decide)

/-- C8 counterexample: inserting an extra occurrence of the query term
`zzz` in the middle of the document destroys the occurrences of the other
two terms that span the insertion point, and the relevance score drops
(from 4/5 to 11/30) even though the term's occurrence count rose. -/
theorem C8_counterexample :
    str "abczzzdezzz" = (str "abcdezzz").take 3 ++ str "zzz" ++ (str "abcdezzz").drop 3 ∧
    countOcc (str "abcdezzz") (str "zzz") < countOcc (str "abczzzdezzz") (str "zzz") ∧
    ∃ q1 q2 : ℚ,
      calculateRelevanceScore (str "abcdezzz") [str "abcd", str "bcde", str "zzz"]
        SearchType.content = JSOutcome.num q1 ∧
      calculateRelevanceScore (str "abczzzdezzz") [str "abcd", str "bcde", str "zzz"]
        SearchType.content = JSOutcome.num q2 ∧
      q2 < q1 := by
  refine ⟨by decide, by decide, _, _,
    calcRel_eq_spec _ _ _ (by decide) (by decide),
    calcRel_eq_spec _ _ _ (by decide) (by decide), ?_⟩
  have e1 : matchedFreqSum (str "abcdezzz") [str "abcd", str "bcde", str "zzz"] = 3 := by
    decide
  have e2 : matchedCount (str "abcdezzz") [str "abcd", str "bcde", str "zzz"] = 3 := by
    decide
  have e3 : matchedFreqSum (str "abczzzdezzz") [str "abcd", str "bcde", str "zzz"] = 2 := by
    decide
  have e4 : matchedCount (str "abczzzdezzz") [str "abcd", str "bcde", str "zzz"] = 1 := by
    decide
  simp only [specRelevanceScore, typeBoost, e1, e2, e3, e4, List.length_cons,
    List.length_nil]
  norm_num [min_def, max_def]

/-- C8 (amended): appending text — in particular further occurrences of a
query term — at the end of a document never decreases the relevance score
(for a non-empty list of plain query terms); only insertions in the
middle, which can destroy other terms' occurrences, break monotonicity. -/
theorem C8_relevance_append_monotone (text u : Str) (ts : List Str) (st : SearchType)
    (hne : ts ≠ []) (hpl : ∀ t ∈ ts, plainTerm t = true) :
    ∃ q1 q2 : ℚ,
      calculateRelevanceScore text ts st = JSOutcome.num q1 ∧
      calculateRelevanceScore (text ++ u) ts st = JSOutcome.num q2 ∧
      q1 ≤ q2 :=
  ⟨specRelevanceScore text ts st, specRelevanceScore (text ++ u) ts st,
    calcRel_eq_spec text ts st hne (fun t ht _ => plainTerm_no_throw t (hpl t ht)),
    calcRel_eq_spec (text ++ u) ts st hne
      (fun t ht _ => plainTerm_no_throw t (hpl t ht)),
    specRel_append_mono text u ts st hne⟩

/-- C8 witness: appending another occurrence of the query term does not
lower the score at a concrete input. -/
theorem C8_witness :
    ∃ q1 q2 : ℚ,
      calculateRelevanceScore (str "react") [str "react"] SearchType.content
        = JSOutcome.num q1 ∧
      calculateRelevanceScore (str "react" ++ str " react") [str "react"]
        SearchType.content = JSOutcome.num q2 ∧
      q1 ≤ q2 :=
  C8_relevance_append_monotone (str "react") (str " react") [str "react"]
    SearchType.content (by decide) (by decide)

/-- C9 counterexample: two conversations agreeing on their 5 most recent
entries (the five newest generations) but with different older prompts
get different statuses, because the code reads the last 5 prompts and the
last 5 generations separately (up to 10 entries), not the most recent 5
entries overall. -/
theorem C9_counterexample :
    recentEntries 5 ⟨[⟨str "fix the bug error", 1, []⟩],
        [⟨str "lorem ipsum dolor sit amet", 10, str "unknown", []⟩,
         ⟨str "consectetur adipiscing", 11, str "unknown", []⟩,
         ⟨str "sed eiusmod tempor", 12, str "unknown", []⟩,
         ⟨str "incididunt labore magna", 13, str "unknown", []⟩,
         ⟨str "aliqua veniam quis", 14, str "unknown", []⟩]⟩
      = recentEntries 5 ⟨[⟨str "deploy finished done", 1, []⟩],
        [⟨str "lorem ipsum dolor sit amet", 10, str "unknown", []⟩,
         ⟨str "consectetur adipiscing", 11, str "unknown", []⟩,
         ⟨str "sed eiusmod tempor", 12, str "unknown", []⟩,
         ⟨str "incididunt labore magna", 13, str "unknown", []⟩,
         ⟨str "aliqua veniam quis", 14, str "unknown", []⟩]⟩ ∧
    detectProjectStatus ⟨[⟨str "fix the bug error", 1, []⟩],
        [⟨str "lorem ipsum dolor sit amet", 10, str "unknown", []⟩,
         ⟨str "consectetur adipiscing", 11, str "unknown", []⟩,
         ⟨str "sed eiusmod tempor", 12, str "unknown", []⟩,
         ⟨str "incididunt labore magna", 13, str "unknown", []⟩,
         ⟨str "aliqua veniam quis", 14, str "unknown", []⟩]⟩
      ≠ detectProjectStatus ⟨[⟨str "deploy finished done", 1, []⟩],
        [⟨str "lorem ipsum dolor sit amet", 10, str "unknown", []⟩,
         ⟨str "consectetur adipiscing", 11, str "unknown", []⟩,
         ⟨str "sed eiusmod tempor", 12, str "unknown", []⟩,
         ⟨str "incididunt labore magna", 13, str "unknown", []⟩,
         ⟨str "aliqua veniam quis", 14, str "unknown", []⟩]⟩ := by
  constructor
  · decide
  · decide

/-- C9 (amended): the detected status depends only on the texts of the
last 5 prompts and the last 5 generations (each array sliced
separately): conversations agreeing on those agree on the status. -/
theorem C9_status_window_split (c1 c2 : NormConv)
    (hp : (lastN 5 c1.prompts).map NormEntry.text
            = (lastN 5 c2.prompts).map NormEntry.text)
    (hg : (lastN 5 c1.generations).map NormGen.text
            = (lastN 5 c2.generations).map NormGen.text) :
    detectProjectStatus c1 = detectProjectStatus c2 :=
  detectProjectStatus_window c1 c2 hp hg

/-- C9 witness: dropping a prompt older than the 5-prompt window keeps the
status unchanged. -/
theorem C9_witness :
    detectProjectStatus ⟨[⟨str "a", 0, []⟩, ⟨str "b", 1, []⟩, ⟨str "c", 2, []⟩,
        ⟨str "d", 3, []⟩, ⟨str "e", 4, []⟩, ⟨str "f", 5, []⟩], []⟩
      = detectProjectStatus ⟨[⟨str "b", 1, []⟩, ⟨str "c", 2, []⟩,
        ⟨str "d", 3, []⟩, ⟨str "e", 4, []⟩, ⟨str "f", 5, []⟩], []⟩ :=
  C9_status_window_split
    ⟨[⟨str "a", 0, []⟩, ⟨str "b", 1, []⟩, ⟨str "c", 2, []⟩,
      ⟨str "d", 3, []⟩, ⟨str "e", 4, []⟩, ⟨str "f", 5, []⟩], []⟩
    ⟨[⟨str "b", 1, []⟩, ⟨str "c", 2, []⟩, ⟨str "d", 3, []⟩,
      ⟨str "e", 4, []⟩, ⟨str "f", 5, []⟩], []⟩
    (by decide) (by decide)

/-- C10: a query term of length > 2 made of regex metacharacters (`c++`)
that occurs in the document makes relevance scoring throw while building
the term-frequency regular expression (terms are interpolated into
`new RegExp` unescaped), instead of returning a score. -/
theorem C10_regex_metachar_throws :
    strIncludes (str "my c++ project") (str "c++") = true ∧
    (str "c++").length > 2 ∧
    calculateRelevanceScore (str "my c++ project") (tokenizeQuery (str "C++ tips"))
      SearchType.content = JSOutcome.thrown :=
  ⟨by decide, by decide, rfl⟩
